import Mathlib

/-
Verification development for the GSR-bench action validation / execution core.

The Python source (src/langgraph_agent) is shallowly embedded here:
  * strings are Lean `String`s, with Python's str helpers (strip, lower,
    split, startswith, endswith, substring membership, replace) re-implemented
    as executable functions over `List Char`;
  * Python `set`s are modelled as duplicate-free lists, used only through
    membership, which is insertion-order independent;
  * the regular expressions of `_parse_flexible_action_command` are embedded
    as token parsers.  Every alternative in the source regexes is a word of
    identifier characters followed by a mandatory whitespace class, so a
    prefix-anchored match (`re.match`) succeeds exactly when the maximal
    identifier-character run at that position equals one of the alternatives
    and is followed by whitespace; the token parsers below implement exactly
    that reading.
  * dictionaries returned by validators are modelled by structures carrying
    the fields that the orchestration layer inspects (`is_valid`,
    `error_reason`, `status`, scene-graph payloads).  Advisory fields
    (suggestions, example lists, boolean detail maps) are not modelled: no
    control-flow decision in the source reads them.
-/

namespace GSR

/-- Characters matched by Python's default `str.strip` and the regex class
backslash-s, restricted to ASCII (all scene-graph text is ASCII). -/
def isWsChar (c : Char) : Bool :=
  c = ' ' || c = '\t' || c = '\n' || c = '\r' || c = '\x0b' || c = '\x0c'

/-- `isPrefixList p s` holds when the char list `p` is a prefix of `s`. -/
def isPrefixList : List Char → List Char → Bool
  | [], _ => true
  | _ :: _, [] => false
  | a :: ps, b :: ss => a = b && isPrefixList ps ss

/-- Substring membership, Python's `sub in s` (empty substring is a member). -/
def containsSubList : List Char → List Char → Bool
  | [], pat => pat.isEmpty
  | c :: rest, pat => isPrefixList pat (c :: rest) || containsSubList rest pat

/-- Fuel-driven worker for `pySplit`: splits on each leftmost non-overlapping
occurrence of the (non-empty) separator, exactly like Python's `str.split`. -/
def splitOnSubFuel (pat : List Char) : Nat → List Char → List Char → List (List Char)
  | 0, s, acc => [acc.reverse ++ s]
  | Nat.succ n, s, acc =>
    match s with
    | [] => [acc.reverse]
    | c :: rest =>
      if pat ≠ [] && isPrefixList pat (c :: rest) then
        acc.reverse :: splitOnSubFuel pat n ((c :: rest).drop pat.length) []
      else
        splitOnSubFuel pat n rest (c :: acc)

/-- Python `s.split(sep)` for a non-empty separator. -/
def pySplit (s sep : String) : List String :=
  (splitOnSubFuel sep.data (s.data.length + 1) s.data []).map String.mk

/-- Python `sub in s`. -/
def pyContains (s sub : String) : Bool := containsSubList s.data sub.data

/-- Python `s.startswith(p)`. -/
def pyStartsWith (s p : String) : Bool := isPrefixList p.data s.data

/-- Python `s.endswith(p)`. -/
def pyEndsWith (s p : String) : Bool := isPrefixList p.data.reverse s.data.reverse

/-- Python `s.strip()`. -/
def pyStrip (s : String) : String :=
  String.mk (((s.data.dropWhile isWsChar).reverse.dropWhile isWsChar).reverse)

/-- ASCII lower-casing of one character. -/
def lowerChar (c : Char) : Char :=
  if 'A' ≤ c && c ≤ 'Z' then Char.ofNat (c.toNat + 32) else c

/-- Python `s.lower()` on ASCII text. -/
def pyLower (s : String) : String := String.mk (s.data.map lowerChar)

/-- Python `sep.join(xs)`. -/
def joinWith (sep : String) : List String → String
  | [] => ""
  | [x] => x
  | x :: xs => x ++ sep ++ joinWith sep xs

/-- Python `s.replace(old, new)` for a non-empty `old`. -/
def pyReplace (s old new : String) : String := joinWith new (pySplit s old)

/-- Set-like insertion: Python `set.add`, modelled on duplicate-free lists. -/
def addUnique (x : String) (xs : List String) : List String :=
  if xs.contains x then xs else xs ++ [x]

end GSR

namespace GSR

/-- Scene graph as held by `SceneGraphManager.current_scene_graph`:
`nodes` (object identifiers, possibly carrying a "(open)"/"(closed)" suffix)
and `edges` (relation strings "a(on)b", "a(in)b", or the table marker "0=F"). -/
structure SceneGraph where
  nodes : List String
  edges : List String
deriving DecidableEq, Repr

/-- Removes the embedded state suffixes, the source's
`name.replace('(open)', '').replace('(closed)', '')`. -/
def cleanName (n : String) : String :=
  pyReplace (pyReplace n "(open)" "") "(closed)" ""

/-- For an edge containing "(on)" or "(in)", the (stripped) endpoint pair
exactly as `_analyze_scene_graph` extracts it: split on "(on)" when present,
otherwise on "(in)", keeping only two-part splits. -/
def edgeNamePair (edge : String) : Option (String × String) :=
  if pyContains edge "(on)" || pyContains edge "(in)" then
    let parts := if pyContains edge "(on)" then pySplit edge "(on)" else pySplit edge "(in)"
    match parts with
    | [a, b] => some (pyStrip a, pyStrip b)
    | _ => none
  else none

/-- The `all_objects` set of `_analyze_scene_graph`: cleaned edge endpoints
other than "table", then cleaned non-empty node names other than "table". -/
def collectAllObjects (sg : SceneGraph) : List String :=
  let fromEdges := sg.edges.foldl (fun acc e =>
    match edgeNamePair e with
    | some (a, b) =>
      let ac := cleanName a
      let bc := cleanName b
      let acc1 := if ac ≠ "table" then addUnique ac acc else acc
      if bc ≠ "table" then addUnique bc acc1 else acc1
    | none => acc) []
  sg.nodes.foldl (fun acc n =>
    let nc := cleanName n
    if nc ≠ "" && nc ≠ "table" then addUnique nc acc else acc) fromEdges

/-- The `table_status` of `_analyze_scene_graph`: last "0=..." edge wins,
default "T". -/
def tableStatusOf (edges : List String) : String :=
  edges.foldl (fun st e =>
    if pyContains e "=" then
      if pyStartsWith e "0=" then (pySplit e "=").getD 1 "" else st
    else st) "T"

/-- The `objects_on_table` set of `_analyze_scene_graph`. -/
def objectsOnTableOf (edges : List String) : List String :=
  edges.foldl (fun acc e =>
    if pyContains e "=" then acc
    else if pyContains e "(on)" then
      match pySplit e "(on)" with
      | [a, b] =>
        if cleanName (pyStrip b) = "table" then addUnique (cleanName (pyStrip a)) acc else acc
      | _ => acc
    else acc) []

/-- The `blocked_objects` set of `_analyze_scene_graph`: cleaned targets of
"(on)" edges whose target is not the table. -/
def blockedObjectsOf (edges : List String) : List String :=
  edges.foldl (fun acc e =>
    if pyContains e "=" then acc
    else if pyContains e "(on)" then
      match pySplit e "(on)" with
      | [_a, b] =>
        if cleanName (pyStrip b) = "table" then acc else addUnique (cleanName (pyStrip b)) acc
      | _ => acc
    else acc) []

/-- Result of `_analyze_scene_graph` (the fields the validator reads; the
`edges` field and the embedded `scene_graph_data` are the graph itself and are
passed to the sub-checks directly). -/
structure SceneAnalysis where
  allObjects : List String
  movableObjects : List String
  blockedObjects : List String
  tableStatus : String
  stackCount : Nat
deriving DecidableEq, Repr

/-- `_analyze_scene_graph`. -/
def analyzeSceneGraph (sg : SceneGraph) : SceneAnalysis :=
  let allObjects := collectAllObjects sg
  let blocked := blockedObjectsOf sg.edges
  { allObjects := allObjects
    movableObjects := allObjects.filter (fun o => !blocked.contains o)
    blockedObjects := blocked
    tableStatus := tableStatusOf sg.edges
    stackCount := (objectsOnTableOf sg.edges).length }

/-- `_is_cube`. -/
def isCube (objectName : String) : Bool :=
  pyEndsWith objectName "_cube" || pyContains (pyLower objectName) "cube"

/-- `_is_mug`. -/
def isMug (objectName : String) : Bool :=
  pyEndsWith objectName "_mug" || pyContains (pyLower objectName) "mug"

/-- `_is_container`. -/
def isContainer (objectName : String) : Bool :=
  let l := pyLower objectName
  pyContains l "drawer" || pyContains l "lid_box" || pyEndsWith l "_box"

/-- `_is_valid_target_location`. -/
def isValidTargetLocation (targetLocation : String) : Bool × String :=
  if isCube targetLocation then
    (false, "Cannot place objects on cube '" ++ targetLocation ++
      "'. Cubes cannot support other objects.")
  else if isMug targetLocation then
    (false, "Cannot place objects on mug '" ++ targetLocation ++
      "'. Mugs cannot support other objects.")
  else
    (true, "Target location '" ++ targetLocation ++ "' is valid for placement")

/-- Node loop of `_get_object_state`: the first node that starts with
"name(" and contains "(open)" or "(closed)" decides; other nodes are skipped. -/
def stateFromNodes (objectName : String) : List String → Option String
  | [] => none
  | n :: rest =>
    if pyStartsWith n (objectName ++ "(") then
      if pyContains n "(open)" then some "open"
      else if pyContains n "(closed)" then some "closed"
      else stateFromNodes objectName rest
    else stateFromNodes objectName rest

/-- Edge loop of `_get_object_state`. -/
def stateFromEdges (objectName : String) : List String → Option String
  | [] => none
  | e :: rest =>
    if pyContains e objectName then
      if pyContains e (objectName ++ "(open)") then some "open"
      else if pyContains e (objectName ++ "(closed)") then some "closed"
      else stateFromEdges objectName rest
    else stateFromEdges objectName rest

/-- `_get_object_state`: node tags take precedence over edge tags. -/
def getObjectState (objectName : String) (sg : SceneGraph) : Option String :=
  match stateFromNodes objectName sg.nodes with
  | some s => some s
  | none => stateFromEdges objectName sg.edges

/-- `_check_drawer_constraints`: the drawer itself must be open; drawer_low
additionally needs middle and high not open, drawer_middle needs high not
open; any other drawer name only needs to be open. -/
def checkDrawerConstraints (drawerName : String) (sg : SceneGraph) : Bool × String :=
  if getObjectState drawerName sg ≠ some "open" then
    (false, drawerName ++ " is not open. Please open " ++ drawerName ++ " first.")
  else if drawerName = "short_cabinet/drawer_low" then
    if getObjectState "short_cabinet/drawer_middle" sg = some "open" then
      (false, "Cannot access " ++ drawerName ++
        " because short_cabinet/drawer_middle is open. Please close short_cabinet/drawer_middle first.")
    else if getObjectState "short_cabinet/drawer_high" sg = some "open" then
      (false, "Cannot access " ++ drawerName ++
        " because short_cabinet/drawer_high is open. Please close short_cabinet/drawer_high first.")
    else (true, drawerName ++ " is accessible (middle and high drawers are closed)")
  else if drawerName = "short_cabinet/drawer_middle" then
    if getObjectState "short_cabinet/drawer_high" sg = some "open" then
      (false, "Cannot access " ++ drawerName ++
        " because short_cabinet/drawer_high is open. Please close short_cabinet/drawer_high first.")
    else (true, drawerName ++ " is accessible (high drawer is closed)")
  else if drawerName = "short_cabinet/drawer_high" then
    (true, drawerName ++ " is accessible (top drawer, no additional constraints)")
  else (true, drawerName ++ " is accessible")

/-- First loop of `_can_move_object`: the first "(on)" edge whose (stripped)
target is the object, yielding the object sitting on top of it. -/
def findOnBlocker (objectName : String) : List String → Option String
  | [] => none
  | e :: rest =>
    if pyContains e "(on)" then
      match pySplit e "(on)" with
      | [a, b] =>
        if pyStrip b = objectName then some (pyStrip a)
        else findOnBlocker objectName rest
      | _ => findOnBlocker objectName rest
    else findOnBlocker objectName rest

/-- Second loop of `_can_move_object`: the container of the first "(in)" edge
whose (stripped) source is the object. -/
def findInContainer (objectName : String) : List String → Option String
  | [] => none
  | e :: rest =>
    if pyContains e "(in)" then
      match pySplit e "(in)" with
      | [a, b] =>
        if pyStrip a = objectName then some (pyStrip b)
        else findInContainer objectName rest
      | _ => findInContainer objectName rest
    else findInContainer objectName rest

/-- `_can_move_object`. -/
def canMoveObject (objectName : String) (sg : SceneGraph) : Bool × String :=
  match findOnBlocker objectName sg.edges with
  | some above => (false, objectName ++ " is blocked by " ++ above ++ " on top of it")
  | none =>
    match findInContainer objectName sg.edges with
    | none => (true, objectName ++ " can be moved (no objects blocking it)")
    | some container =>
      if getObjectState container sg = some "closed" then
        (false, "Cannot move " ++ objectName ++ " from " ++ container ++
          " because the container is closed. Please open " ++ container ++ " first.")
      else if pyContains container "drawer" && !(checkDrawerConstraints container sg).1 then
        (false, (checkDrawerConstraints container sg).2)
      else
        match findOnBlocker container sg.edges with
        | some blocking =>
          (false, objectName ++ " cannot be moved because its container " ++ container ++
            " is blocked by " ++ blocking)
        | none => (true, objectName ++ " can be moved (no objects blocking it)")

/-- Blocker collection of `_can_access_target`: every "(on)" edge whose
(stripped) target equals the name contributes the object above. -/
def onBlockersOf (name : String) (edges : List String) : List String :=
  edges.foldl (fun acc e =>
    if pyContains e "(on)" then
      match pySplit e "(on)" with
      | [a, b] => if pyStrip b = name then acc ++ [pyStrip a] else acc
      | _ => acc
    else acc) []

/-- `_can_access_target`.  The state check fires for lid_box or drawer
targets; the drawer-ordering check additionally for drawer targets. -/
def canAccessTarget (targetName : String) (sg : SceneGraph) : Bool × String :=
  let blockers := onBlockersOf targetName sg.edges
  if blockers ≠ [] then
    (false, targetName ++ " is blocked by objects on top: " ++ joinWith ", " blockers ++
      ". Must clear these objects first.")
  else if (pyContains targetName "lid_box" || pyContains targetName "drawer") &&
      getObjectState targetName sg = some "closed" then
    (false, "Cannot place objects in " ++ targetName ++
      " because it is closed. Please open " ++ targetName ++ " first.")
  else if pyContains targetName "drawer" && !(checkDrawerConstraints targetName sg).1 then
    (false, (checkDrawerConstraints targetName sg).2)
  else (true, targetName ++ " is accessible (no objects blocking from above)")

end GSR

namespace GSR

/-- Location scan shared by `_can_place_cube_in_box` and
`_validate_cube_source_accessibility`: the first edge containing
"cube(in)" or (failing that, on the same edge) "cube(on)" whose stripped
source is the cube yields its location.  The Boolean returned with the
location marks the cube as container-held: "(in)" edges always do;
for "(on)" edges the two callers disagree, so the rule is a parameter
(`onMeansContainer loc` gives the flag for an "(on)" edge with target
`loc`). -/
def cubeLocationWith (onMeansContainer : String → Bool) (cubeName : String) :
    List String → Option (String × Bool)
  | [] => none
  | e :: rest =>
    if pyContains e (cubeName ++ "(in)") then
      match pySplit e "(in)" with
      | [a, b] =>
        if pyStrip a = cubeName then some (pyStrip b, true)
        else cubeLocationWith onMeansContainer cubeName rest
      | _ => cubeLocationWith onMeansContainer cubeName rest
    else if pyContains e (cubeName ++ "(on)") then
      match pySplit e "(on)" with
      | [a, b] =>
        if pyStrip a = cubeName then some (pyStrip b, onMeansContainer (pyStrip b))
        else cubeLocationWith onMeansContainer cubeName rest
      | _ => cubeLocationWith onMeansContainer cubeName rest
    else cubeLocationWith onMeansContainer cubeName rest

/-- Suffix-style blocker collection used by the cube checks: every edge
containing "(on)" and ending in "(on)name" contributes its stripped source. -/
def suffixOnBlockersOf (name : String) (edges : List String) : List String :=
  edges.foldl (fun acc e =>
    if pyContains e "(on)" && pyEndsWith e ("(on)" ++ name) then
      match pySplit e "(on)" with
      | [a, _b] => acc ++ [pyStrip a]
      | _ => acc
    else acc) []

/-- Cube count of `_can_place_cube_in_box`: edges containing "(in)" and
ending in "(in)target" whose stripped source is a cube. -/
def cubesInTargetCount (targetBox : String) (edges : List String) : Nat :=
  edges.foldl (fun n e =>
    if pyContains e "(in)" && pyEndsWith e ("(in)" ++ targetBox) then
      match pySplit e "(in)" with
      | [a, _b] => if isCube (pyStrip a) then n + 1 else n
      | _ => n
    else n) 0

/-- `_can_place_cube_in_box`.  Note the capacity short-circuit compares the
cube count against 10, while both outcome messages print the count over a
limit of 3. -/
def canPlaceCubeInBox (cubeName targetBox : String) (sg : SceneGraph) : Bool × String :=
  let loc := cubeLocationWith (fun _ => false) cubeName sg.edges
  let sourceBlockers :=
    match loc with
    | some (l, true) => suffixOnBlockersOf l sg.edges
    | _ => []
  if sourceBlockers ≠ [] then
    match loc with
    | some (l, _) =>
      (false, "Cannot move " ++ cubeName ++ " from " ++ l ++
        " because container is blocked by: " ++ joinWith ", " sourceBlockers ++
        ". Must clear these objects first.")
    | none => (false, "")
  else
    let targetBlockers := suffixOnBlockersOf targetBox sg.edges
    if targetBlockers ≠ [] then
      (false, "Cannot place " ++ cubeName ++ " in " ++ targetBox ++
        " because target container is blocked by: " ++ joinWith ", " targetBlockers ++
        ". Must clear these objects first.")
    else
      let cubes := cubesInTargetCount targetBox sg.edges
      if cubes ≥ 10 then
        (false, "Cannot place " ++ cubeName ++ " in " ++ targetBox ++
          " because container is at capacity (" ++ toString cubes ++ "/3 cubes).")
      else
        (true, "Can move " ++ cubeName ++ " to " ++ targetBox ++
          ". Source accessible, target accessible, target has capacity (" ++
          toString cubes ++ "/3).")

/-- `_validate_cube_source_accessibility`. -/
def validateCubeSourceAccessibility (cubeName : String) (sg : SceneGraph) : Bool × String :=
  match cubeLocationWith (fun l => l ≠ "table") cubeName sg.edges with
  | none => (false, "Cannot determine current location of " ++ cubeName)
  | some (loc, inContainer) =>
    if loc = "table" then (true, cubeName ++ " is on table, directly accessible")
    else if inContainer then
      let blockers := suffixOnBlockersOf loc sg.edges
      if blockers ≠ [] then
        (false, "Container " ++ loc ++ " is blocked by: " ++ joinWith ", " blockers ++
          ". Must clear these objects first before accessing " ++ cubeName ++ ".")
      else (true, "Container " ++ loc ++ " is accessible, can move " ++ cubeName)
    else (true, cubeName ++ " appears to be accessible from " ++ loc)

/-- `_check_action_already_completed`: the exact edge "src(rel)tgt", with the
extra "src(on)table" alias when the target is the table. -/
def checkActionAlreadyCompleted (sourceObject targetLocation relation : String)
    (edges : List String) : Bool × String :=
  let expected := sourceObject ++ "(" ++ relation ++ ")" ++ targetLocation
  if edges.contains expected then
    (true, sourceObject ++ " is already " ++ relation ++ " " ++ targetLocation)
  else if targetLocation = "table" && edges.contains (sourceObject ++ "(on)table") then
    (true, sourceObject ++ " is already on table")
  else
    (false, sourceObject ++ " is not yet " ++ relation ++ " " ++ targetLocation)

end GSR

namespace GSR

/-- Parsed action command, `_parse_flexible_action_command`'s result:
open/close carry the target object; move carries source, normalized
relation ("in"/"on") and target. -/
inductive ParsedAction where
  | openClose (verb : String) (target : String)
  | move (sourceObject relation targetLocation : String)
deriving DecidableEq, Repr

/-- Start set of the regex identifier class [a-zA-Z_]. -/
def isIdentStart (c : Char) : Bool :=
  ('a' ≤ c && c ≤ 'z') || ('A' ≤ c && c ≤ 'Z') || c = '_'

/-- The regex identifier class [a-zA-Z0-9_/]. -/
def isIdentChar (c : Char) : Bool :=
  isIdentStart c || ('0' ≤ c && c ≤ '9') || c = '/'

/-- Maximal run of identifier characters at the head of the input. -/
def maxIdentRun (s : List Char) : String × List Char :=
  (String.mk (s.takeWhile isIdentChar), s.dropWhile isIdentChar)

/-- An identifier group [a-zA-Z_][a-zA-Z0-9_/]* at the head of the input. -/
def takeIdentTok (s : List Char) : Option (String × List Char) :=
  match s with
  | [] => none
  | c :: rest =>
    if isIdentStart c then
      some (String.mk (c :: rest.takeWhile isIdentChar), rest.dropWhile isIdentChar)
    else none

/-- Mandatory whitespace, the regex class backslash-s+. -/
def ws1 (s : List Char) : Option (List Char) :=
  match s with
  | c :: rest => if isWsChar c then some (rest.dropWhile isWsChar) else none
  | [] => none

/-- Optional whitespace, the regex class backslash-s*. -/
def wsAny (s : List Char) : List Char := s.dropWhile isWsChar

/-- A literal word of identifier characters followed by mandatory whitespace
(the regexes only use word alternatives in this position, so the match
succeeds exactly when the maximal identifier run equals the word). -/
def litTok (w : String) (s : List Char) : Option (List Char) :=
  let r := maxIdentRun s
  if r.1 = w then ws1 r.2 else none

/-- The move/put relation group (in|into|to|on|upon) followed by mandatory
whitespace. -/
def relTok (s : List Char) : Option (String × List Char) :=
  let r := maxIdentRun s
  if r.1 = "in" || r.1 = "into" || r.1 = "to" || r.1 = "on" || r.1 = "upon" then
    (ws1 r.2).map (fun rest => (r.1, rest))
  else none

/-- The anchored head "action backslash-s+ type backslash-s+ digits
backslash-s* : backslash-s*" shared by the "action type N:" regex variants. -/
def actionTypeHead (s : List Char) : Option (List Char) :=
  match litTok "action" s with
  | none => none
  | some s1 =>
    match litTok "type" s1 with
    | none => none
    | some s2 =>
      match s2 with
      | c :: rest =>
        if c.isDigit then
          match wsAny (rest.dropWhile Char.isDigit) with
          | ':' :: r2 => some (wsAny r2)
          | _ => none
        else none
      | [] => none

/-- The open/close regex body "(open|close) backslash-s+ ident". -/
def parseOpenCloseAt (s : List Char) : Option ParsedAction :=
  let r := maxIdentRun s
  if r.1 = "open" || r.1 = "close" then
    match ws1 r.2 with
    | some rest =>
      match takeIdentTok rest with
      | some (t, _) => some (ParsedAction.openClose r.1 t)
      | none => none
    | none => none
  else none

/-- The move/put regex body "verb backslash-s+ ident backslash-s+
(in|into|to|on|upon) backslash-s+ ident", with the source's relation
normalization (into becomes in; to and upon become on). -/
def parseMoveAt (verb : String) (s : List Char) : Option ParsedAction :=
  match litTok verb s with
  | none => none
  | some s1 =>
    match takeIdentTok s1 with
    | none => none
    | some (g1, s2) =>
      match ws1 s2 with
      | none => none
      | some s3 =>
        match relTok s3 with
        | none => none
        | some (rel, s4) =>
          match takeIdentTok s4 with
          | none => none
          | some (g3, _) =>
            let rel2 := if rel = "into" then "in"
              else if rel = "to" || rel = "upon" then "on" else rel
            some (ParsedAction.move g1 rel2 g3)

/-- `_parse_flexible_action_command`: strip and lower-case the command, then
try the anchored patterns in the source's order (open/close, "action type N:"
open/close, move, "action type N:" move, put, "action type N:" put). -/
def parseFlexibleActionCommand (command : String) : Option ParsedAction :=
  let cs := (pyLower (pyStrip command)).data
  (parseOpenCloseAt cs).orElse fun _ =>
  ((actionTypeHead cs).bind parseOpenCloseAt).orElse fun _ =>
  (parseMoveAt "move" cs).orElse fun _ =>
  ((actionTypeHead cs).bind (parseMoveAt "move")).orElse fun _ =>
  (parseMoveAt "put" cs).orElse fun _ =>
  ((actionTypeHead cs).bind (parseMoveAt "put"))

end GSR

namespace GSR

/-- Validation verdict: the `is_valid` / `error_reason` pair of the
dictionaries built by `_validate_action_command` and its helpers. -/
structure ValidationResult where
  isValid : Bool
  errorReason : Option String
deriving DecidableEq, Repr

/-- Node scan of `_validate_open_close_action`: the first node equal to the
target (no state) or starting with "target(" (state read from that node)
settles the search. -/
def openCloseNodeScan (targetObject : String) : List String → Option (Option String)
  | [] => none
  | n :: rest =>
    if n = targetObject then some none
    else if pyStartsWith n (targetObject ++ "(") then
      some (if pyContains n "(open)" then some "open"
        else if pyContains n "(closed)" then some "closed" else none)
    else openCloseNodeScan targetObject rest

/-- Edge scan of `_validate_open_close_action`: the first edge containing the
target settles the search. -/
def openCloseEdgeScan (targetObject : String) : List String → Option (Option String)
  | [] => none
  | e :: rest =>
    if pyContains e targetObject then
      some (if pyContains e (targetObject ++ "(open)") then some "open"
        else if pyContains e (targetObject ++ "(closed)") then some "closed" else none)
    else openCloseEdgeScan targetObject rest

/-- `_validate_open_close_action`. -/
def validateOpenCloseAction (actionType targetObject : String) (sg : SceneGraph) :
    ValidationResult :=
  let found :=
    match openCloseNodeScan targetObject sg.nodes with
    | some st => some st
    | none => openCloseEdgeScan targetObject sg.edges
  match found with
  | none =>
    { isValid := false
      errorReason := some ("Object '" ++ targetObject ++ "' not found in scene graph") }
  | some none =>
    { isValid := false
      errorReason := some ("Object '" ++ targetObject ++
        "' does not have open/close state information in scene graph") }
  | some (some st) =>
    if actionType = "open" && st = "open" then
      { isValid := false
        errorReason := some ("Object '" ++ targetObject ++
          "' is already open. Cannot open an already opened object.") }
    else if actionType = "close" && st = "closed" then
      { isValid := false
        errorReason := some ("Object '" ++ targetObject ++
          "' is already closed. Cannot close an already closed object.") }
    else { isValid := true, errorReason := none }

/-- Final step of the move branch of `_validate_action_command`: the
already-completed check, then the success verdict. -/
def finishMoveValidation (sourceObject targetLocation relation : String)
    (edges : List String) : ValidationResult :=
  let ac := checkActionAlreadyCompleted sourceObject targetLocation relation edges
  if ac.1 then
    { isValid := false, errorReason := some ("Action already completed: " ++ ac.2) }
  else { isValid := true, errorReason := none }

/-- Move branch of `_validate_action_command`: the source's fixed check
order (existence, cube source accessibility, movability, container nesting,
target type, target accessibility plus cube capacity or table status,
already-completed). -/
def validateMoveCommand (sourceObject relation targetLocation : String)
    (sg : SceneGraph) : ValidationResult :=
  let analysis := analyzeSceneGraph sg
  if !analysis.allObjects.contains sourceObject then
    { isValid := false
      errorReason := some ("Source object '" ++ sourceObject ++ "' not found in scene") }
  else if targetLocation ≠ "table" && !analysis.allObjects.contains targetLocation then
    { isValid := false
      errorReason := some ("Target location '" ++ targetLocation ++ "' not found in scene") }
  else if isCube sourceObject && !(validateCubeSourceAccessibility sourceObject sg).1 then
    { isValid := false
      errorReason := some ("Cannot move cube " ++ sourceObject ++ ": " ++
        (validateCubeSourceAccessibility sourceObject sg).2) }
  else if !(canMoveObject sourceObject sg).1 then
    { isValid := false
      errorReason := some ("Cannot move " ++ sourceObject ++ ": " ++
        (canMoveObject sourceObject sg).2) }
  else if targetLocation ≠ "table" && (isContainer sourceObject && isContainer targetLocation) then
    { isValid := false
      errorReason := some ("Cannot move container '" ++ sourceObject ++
        "' into another container '" ++ targetLocation ++
        "'. Containers cannot be placed inside other containers.") }
  else if targetLocation ≠ "table" && !(isValidTargetLocation targetLocation).1 then
    { isValid := false, errorReason := some (isValidTargetLocation targetLocation).2 }
  else if targetLocation ≠ "table" then
    if !(canAccessTarget targetLocation sg).1 then
      { isValid := false
        errorReason := some ("Cannot place on " ++ targetLocation ++ ": " ++
          (canAccessTarget targetLocation sg).2) }
    else if isCube sourceObject && !(canPlaceCubeInBox sourceObject targetLocation sg).1 then
      { isValid := false
        errorReason := some ("Cannot place cube " ++ sourceObject ++ " in " ++
          targetLocation ++ ": " ++ (canPlaceCubeInBox sourceObject targetLocation sg).2) }
    else finishMoveValidation sourceObject targetLocation relation sg.edges
  else
    if analysis.tableStatus = "F" then
      { isValid := false, errorReason := some "Table is full (3 stacks maximum)" }
    else finishMoveValidation sourceObject targetLocation relation sg.edges

/-- `_validate_action_command`: parse, then dispatch to the open/close or
move branch. -/
def validateActionCommand (command : String) (sg : SceneGraph) : ValidationResult :=
  match parseFlexibleActionCommand command with
  | none =>
    { isValid := false, errorReason := some ("Cannot parse action: " ++ command) }
  | some (ParsedAction.openClose verb target) => validateOpenCloseAction verb target sg
  | some (ParsedAction.move src rel tgt) => validateMoveCommand src rel tgt sg

end GSR

namespace GSR

/-- Response envelope of `ActionValidationExecutionTool.execute` and its
formatters: the `status`, the `is_valid` / `error_reason` pair when present,
the free-text `message` when present, and the scene-graph payload
(`current_scene_graph` or, for success, `scene_graph`). -/
structure ToolResponse where
  status : String
  isValid : Option Bool
  errorReason : Option String
  message : Option String
  sceneGraph : Option SceneGraph
deriving DecidableEq, Repr

/-- Mutable fields of `ActionValidationExecutionTool` that the control flow
of `execute` reads or writes (`validation_count`, `consecutive_failures`,
`success_count`, `init_scene_graph_data`; the last starts as Python `None`). -/
structure ToolState where
  validationCount : Nat
  consecutiveFailures : Nat
  successCount : Nat
  initSceneGraph : Option SceneGraph
deriving DecidableEq, Repr

/-- `self.max_consecutive_failures`. -/
def maxConsecutiveFailures : Nat := 5

/-- `_format_success_response` (the fields modelled here; the scene-graph
payload is the final snapshot under the `scene_graph` key). -/
def formatSuccessResponse (finalGraph : SceneGraph) : ToolResponse :=
  { status := "execution_success"
    isValid := none
    errorReason := none
    message := some ("Action validated and executed successfully. " ++
      "Environment updated and scene graph stabilized.")
    sceneGraph := some finalGraph }

/-- `_format_timeout_response`: the scene graph in the payload is the
manager's current snapshot (`get_current_scene_graph`), not the initial one. -/
def formatTimeoutResponse (managerCurrent : SceneGraph) : ToolResponse :=
  { status := "execution_timeout"
    isValid := none
    errorReason := none
    message := some "Timed out waiting for /agent_trigger signal (value=true)"
    sceneGraph := some managerCurrent }

/-- `_format_error_response`. -/
def formatErrorResponse (errorMsg : String) (managerCurrent : SceneGraph) : ToolResponse :=
  { status := "execution_error"
    isValid := none
    errorReason := none
    message := some ("Error during action execution: " ++ errorMsg)
    sceneGraph := some managerCurrent }

/-- `_execute_action`'s wait loop, embedded over the sequence of
`trigger_received` values observed at each poll tick before `max_wait_time`
elapses (the bus delivery is asynchronous, so the tick values are a
parameter).  `excDuringWait` models an exception raised inside the
publish/wait `try` block: the source's `except` arm returns the structured
error payload.  `managerCurrent` is the manager's snapshot during the wait,
`finalGraph` the snapshot re-read after the settle delay that follows a
received trigger. -/
def executeAction (excDuringWait : Option String) (triggers : List Bool)
    (managerCurrent finalGraph : SceneGraph) : ToolResponse :=
  match excDuringWait with
  | some e => formatErrorResponse e managerCurrent
  | none =>
    if triggers.any (fun t => t) then formatSuccessResponse finalGraph
    else formatTimeoutResponse managerCurrent

/-- The `try`/`except` wrapper of `_validate_action_command` (lines 397-402):
an exception escaping any sub-check is converted into an invalid verdict with
a "Validation error: ..." reason. -/
def validateCatch (r : Except String ValidationResult) : ValidationResult :=
  match r with
  | Except.ok v => v
  | Except.error e => { isValid := false, errorReason := some ("Validation error: " ++ e) }

/-- Validation-failure payload of `execute` (status, reason, refreshed
scene graph). -/
def validationFailedResponse (reason : Option String) (refreshed : SceneGraph) : ToolResponse :=
  { status := "validation_failed"
    isValid := some false
    errorReason := reason
    message := none
    sceneGraph := some refreshed }

/-- `ActionValidationExecutionTool.execute` as a state machine.  Parameters
beyond the command: `managerCurrent` is the snapshot the scene-graph manager
serves when `execute` fetches it (first call, post-failure refresh, or during
the wait loop), `excDuringWait`, `triggers` and `finalGraph` feed the
execution phase as in `executeAction`.  Returns the response and the updated
tool state. -/
def executeTool (st0 : ToolState) (managerCurrent : SceneGraph) (query : String)
    (excDuringWait : Option String) (triggers : List Bool) (finalGraph : SceneGraph) :
    ToolResponse × ToolState :=
  let st := { st0 with validationCount := st0.validationCount + 1 }
  if st.consecutiveFailures ≥ maxConsecutiveFailures then
    ({ status := "task_failed"
       isValid := some false
       errorReason := some ("Task terminated due to consecutive validation failures (" ++
         toString maxConsecutiveFailures ++
         " times). The task appears to be impossible to complete.")
       message := none
       sceneGraph := st.initSceneGraph },
     { st with consecutiveFailures := 0 })
  else
    let st := if st.validationCount = 1 then { st with initSceneGraph := some managerCurrent }
      else st
    if pyStrip query = "" then
      ({ status := "validation_failed"
         isValid := some false
         errorReason := some ("No action command provided. Please provide a valid action " ++
           "in format 'action type X: move boxY to boxZ' or 'action type X: move boxY to table'")
         message := none
         sceneGraph := st.initSceneGraph },
       st)
    else
      let vr := validateActionCommand query (st.initSceneGraph.getD ⟨[], []⟩)
      if !vr.isValid then
        let st := { st with consecutiveFailures := st.consecutiveFailures + 1
                            initSceneGraph := some managerCurrent }
        (validationFailedResponse vr.errorReason managerCurrent, st)
      else
        let st := { st with successCount := st.successCount + 1, consecutiveFailures := 0 }
        let res := executeAction excDuringWait triggers managerCurrent finalGraph
        let st := if res.status = "execution_success" then
            { st with initSceneGraph := some finalGraph }
          else st
        (res, st)

end GSR

namespace GSR

/-- Repetition state of the agent (`last_call_message`,
`last_last_call_message`, `same_tool_count`); initial values from `__init__`. -/
structure GuardState where
  lastCall : Option String
  lastLastCall : Option String
  sameToolCount : Nat
deriving DecidableEq, Repr

/-- The guard state as initialized in the agent's constructor. -/
def initialGuardState : GuardState := { lastCall := none, lastLastCall := none, sameToolCount := 0 }

/-- Outcome of the repetition pre-check at the head of
`_call_validate_execute`. -/
inductive GuardOutcome where
  | oscillation
  | repeated
  | proceed
deriving DecidableEq, Repr

/-- The repetition pre-check of `_call_validate_execute` (lines 699-749):
a command equal to the one before last is rejected as oscillation and clears
all three fields; a command equal to the previous one bumps the streak and is
rejected once the streak reaches 5 (clearing the streak and the last
command); otherwise the streak resets and the two-command window shifts. -/
def guardStep (g : GuardState) (cmd : String) : GuardOutcome × GuardState :=
  if g.lastLastCall = some cmd then
    (GuardOutcome.oscillation, { lastCall := none, lastLastCall := none, sameToolCount := 0 })
  else if g.lastCall = some cmd then
    let c := g.sameToolCount + 1
    if c ≥ 5 then
      (GuardOutcome.repeated,
        { lastCall := none, lastLastCall := g.lastLastCall, sameToolCount := 0 })
    else (GuardOutcome.proceed, { g with sameToolCount := c })
  else
    (GuardOutcome.proceed,
      { lastCall := some cmd, lastLastCall := g.lastCall, sameToolCount := 0 })

/-- `_call_validate_execute`, with the tool invocation abstracted as
`tool : String → ToolResponse` (it runs only when the guard lets the command
through; its verdict does not influence the guard bookkeeping).  Returns the
message content recorded for the round and the updated guard state. -/
def callValidateExecute (g : GuardState) (cmd : String) (tool : String → ToolResponse) :
    String × GuardState :=
  match guardStep g cmd with
  | (GuardOutcome.oscillation, g2) =>
    ("invalid, reason: The action \"" ++ cmd ++ "\" is the same as the one before last.", g2)
  | (GuardOutcome.repeated, g2) =>
    ("invalid, reason: The action \"" ++ cmd ++ "\" was repeated.", g2)
  | (GuardOutcome.proceed, g2) => ((tool cmd).status, g2)

end GSR

namespace GSR

/-- `SceneGraphManager`'s stability-tracking state (`scene_graph_history`,
`stable_frame_count`, `waiting_for_update`, `current_scene_graph`, and the
configured threshold / history bound). -/
structure MgrState where
  currentSceneGraph : SceneGraph
  history : List SceneGraph
  stableFrameCount : Nat
  waitingForUpdate : Bool
  stableFrameThreshold : Nat
  maxHistorySize : Nat
deriving DecidableEq, Repr

/-- `STABILITY_CONFIG["stable_frame_threshold"]` (its configured value;
the manager also falls back to 5 when the key is missing). -/
def defaultStableFrameThreshold : Nat := 5

/-- `_check_stability`: the first snapshot while waiting starts the count at
1; a snapshot equal to the last history entry bumps the count (and extends
the bounded history); a differing snapshot resets the count to 1. -/
def checkStability (st : MgrState) (g : SceneGraph) : MgrState :=
  if st.history = [] then { st with history := [g], stableFrameCount := 1 }
  else if st.history.getLast? = some g then
    { st with
        stableFrameCount := st.stableFrameCount + 1
        history := if st.history.length < st.maxHistorySize then st.history ++ [g]
          else st.history }
  else { st with history := [g], stableFrameCount := 1 }

/-- `update_scene_graph` on a successfully parsed snapshot: store it as
current and, while waiting for an update, run the stability check. -/
def updateSceneGraph (st : MgrState) (g : SceneGraph) : MgrState :=
  let st := { st with currentSceneGraph := g }
  if st.waitingForUpdate then checkStability st g else st

/-- Result of `check_update_status` (the fields the callers read). -/
structure UpdateStatus where
  isWaiting : Bool
  isStable : Bool
deriving DecidableEq, Repr

/-- `check_update_status`: while waiting, the graph is reported stable
exactly when the counter has reached the threshold. -/
def checkUpdateStatus (st : MgrState) : UpdateStatus :=
  if !st.waitingForUpdate then { isWaiting := false, isStable := false }
  else { isWaiting := true, isStable := st.stableFrameCount ≥ st.stableFrameThreshold }

end GSR

namespace GSR

/-- Head line of `_build_action_feedback_message` per result status. -/
def feedbackHead (status actionQuery errorReason message : String) : String :=
  if status = "execution_success" then
    "The previous action '" ++ actionQuery ++ "' was executed successfully."
  else if status = "validation_failed" then
    "The action '" ++ actionQuery ++ "' is invalid, reason: " ++ errorReason
  else if status = "task_failed" then
    "The action '" ++ actionQuery ++ "' failed, reason: " ++ errorReason
  else if status = "execution_timeout" then
    "The action '" ++ actionQuery ++ "' timed out waiting for completion signal."
  else if status = "execution_error" then
    "The action '" ++ actionQuery ++ "' encountered an error: " ++ message
  else "Action '" ++ actionQuery ++ "' completed with status: " ++ status

/-- `_build_action_feedback_message` when the result carries a scene graph
(every status-bearing tool result does): the head line plus the rendered
scene graph. -/
def buildActionFeedbackMessage (status actionQuery errorReason message sceneText : String) :
    String :=
  feedbackHead status actionQuery errorReason message ++
    "\n\nCurrent scene graph:\n" ++ sceneText

/-- Task-failure flag recorded by `_call_validate_execute` for the round's
execution record: it parses the raw tool-result JSON and checks its status. -/
def recordTaskFailedOfStatus (rawStatus : String) : Bool := rawStatus = "task_failed"

/-- `_should_continue_after_execution` on the content of the round's
ValidateAndExecuteAction tool message.  The source first tries
`json.loads(content)`; the content is the prose feedback built by
`_build_action_feedback_message`, which always starts with "The " or
"Action '", so the load raises and control reaches the `except` arm embedded
here: the textual validation-failure probe, then the state flag, then the
last execution record (`_call_validate_execute` returns only the messages, so
the state flag stays unset in the source; it is kept as a parameter). -/
def shouldContinueAfterExecution (content : String) (stateTaskFailed : Bool)
    (lastRecordTaskFailed : Bool) : String :=
  if pyStartsWith content "The action '" && pyContains content "is invalid, reason:" then "end"
  else if stateTaskFailed then "end"
  else if lastRecordTaskFailed then "end"
  else "continue"

/-- Conditional-edge wiring of the orchestration graph after
`validate_execute` ("continue" goes back to the planning node "agent",
"end" to the terminal state). -/
def afterExecutionTarget (decision : String) : String :=
  if decision = "continue" then "agent" else "END"

end GSR

namespace GSR

/-- Claim C2: whenever three commands reach the validate-and-execute node in
sequence with the third equal to the first and different from the second, the
third round is rejected as an oscillation with the "same as the one before
last" message — whatever the tool (hence the command's own validity) would
say, since the guard runs before the tool is invoked — and the repetition
state returns to its initial empty value (no tracked commands, zero streak). -/
theorem c2_oscillation_rejected (a b : String) (tool1 tool2 tool3 : String → ToolResponse)
    (hne : b ≠ a) :
    callValidateExecute
      (callValidateExecute
        (callValidateExecute initialGuardState a tool1).2 b tool2).2 a tool3 =
      ("invalid, reason: The action \"" ++ a ++ "\" is the same as the one before last.",
        initialGuardState) := by
  have hne2 : a ≠ b := Ne.symm hne
  simp [callValidateExecute, guardStep, initialGuardState, hne2]

/-- Witness for C2 at the concrete pair of commands A = "move x on y",
B = "move y on x" and a tool that would report success. -/
theorem c2_oscillation_rejected_witness :
    ("move y on x" ≠ "move x on y") ∧
    callValidateExecute
      (callValidateExecute
        (callValidateExecute initialGuardState "move x on y"
          (fun _ => formatSuccessResponse ⟨[], []⟩)).2 "move y on x"
          (fun _ => formatSuccessResponse ⟨[], []⟩)).2 "move x on y"
          (fun _ => formatSuccessResponse ⟨[], []⟩) =
      ("invalid, reason: The action \"move x on y\" is the same as the one before last.",
        initialGuardState) :=
  ⟨by decide,
    c2_oscillation_rejected "move x on y" "move y on x" _ _ _ (by decide)⟩

end GSR

namespace GSR

/-- Counterexample to claim C5: submit "move a_cube on b_box" twice from the
initial state with a tool that validates and executes the command
successfully.  The second round proceeds to the tool and reports success,
yet afterwards the same-command streak counter is 1 (not zero) and the
last/second-last window has not shifted (the second-last slot is still
empty): the repetition bookkeeping ignores the validation outcome. -/
theorem c5_reset_on_success_counterexample :
    (callValidateExecute
      (callValidateExecute initialGuardState "move a_cube on b_box"
        (fun _ => formatSuccessResponse ⟨[], []⟩)).2 "move a_cube on b_box"
        (fun _ => formatSuccessResponse ⟨[], []⟩)).1 = "execution_success" ∧
    (callValidateExecute
      (callValidateExecute initialGuardState "move a_cube on b_box"
        (fun _ => formatSuccessResponse ⟨[], []⟩)).2 "move a_cube on b_box"
        (fun _ => formatSuccessResponse ⟨[], []⟩)).2 =
      { lastCall := some "move a_cube on b_box", lastLastCall := none, sameToolCount := 1 } := by
  constructor
  · decide
  · decide

/-- Claim C5 as amended: the repetition state is shifted and its streak
zeroed exactly when the incoming command differs from both tracked commands
— this happens before validation and is independent of the tool's verdict
(the guard is the only writer of that state) — while what a successful
validation resets is the consecutive-failure counter: every round whose
response is not a validation failure leaves that counter at zero. -/
theorem c5_repetition_state_lifecycle :
    (∀ g cmd, g.lastLastCall ≠ some cmd → g.lastCall ≠ some cmd →
      (guardStep g cmd).2 =
        { lastCall := some cmd, lastLastCall := g.lastCall, sameToolCount := 0 }) ∧
    (∀ g cmd tool, (callValidateExecute g cmd tool).2 = (guardStep g cmd).2) ∧
    (∀ st mgr q exc trig fin,
      (executeTool st mgr q exc trig fin).1.status ≠ "validation_failed" →
      (executeTool st mgr q exc trig fin).2.consecutiveFailures = 0) := by
  refine ⟨?_, ?_, ?_⟩
  · intro g cmd h1 h2
    simp [guardStep, h1, h2]
  · intro g cmd tool
    rcases h : guardStep g cmd with ⟨o, g2⟩
    cases o <;> simp [callValidateExecute, h]
  · intro st mgr q exc trig fin
    simp only [executeTool]
    split_ifs <;> intro hst <;> first
      | rfl
      | exact absurd rfl hst

/-- Witness for C5 as amended, at a fresh guard state receiving a new
command, and a tool round with an empty history whose command validates and
times out (statuses other than validation_failed leave the counter zero). -/
theorem c5_repetition_state_lifecycle_witness :
    ((none : Option String) ≠ some "move a_cube on b_box") ∧
    (guardStep initialGuardState "move a_cube on b_box").2 =
      { lastCall := some "move a_cube on b_box", lastLastCall := none, sameToolCount := 0 } ∧
    (executeTool ⟨0, 3, 0, none⟩ ⟨["a_cube", "b_box"], ["a_cube(on)table"]⟩
      "move a_cube on b_box" none [] ⟨[], []⟩).1.status ≠ "validation_failed" ∧
    (executeTool ⟨0, 3, 0, none⟩ ⟨["a_cube", "b_box"], ["a_cube(on)table"]⟩
      "move a_cube on b_box" none [] ⟨[], []⟩).2.consecutiveFailures = 0 :=
  ⟨by decide,
    c5_repetition_state_lifecycle.1 initialGuardState "move a_cube on b_box"
      (by decide) (by decide),
    by decide,
    c5_repetition_state_lifecycle.2.2 ⟨0, 3, 0, none⟩
      ⟨["a_cube", "b_box"], ["a_cube(on)table"]⟩ "move a_cube on b_box" none [] ⟨[], []⟩
      (by decide)⟩

end GSR

namespace GSR

/-- Counterexample to claim C10: when the consecutive-failure counter has
already reached its ceiling, an empty command is answered with a
`task_failed` verdict (the ceiling guard runs first), not
`validation_failed`, and the counter is reset to zero rather than left
untouched. -/
theorem c10_empty_command_counterexample :
    (executeTool ⟨7, 5, 0, none⟩ ⟨[], []⟩ "" none [] ⟨[], []⟩).1.status = "task_failed" ∧
    (executeTool ⟨7, 5, 0, none⟩ ⟨[], []⟩ "" none [] ⟨[], []⟩).2.consecutiveFailures = 0 := by
  constructor
  · decide
  · decide

/-- Claim C10 as amended: provided the consecutive-failure ceiling has not
already been reached, an empty or whitespace-only command is answered with a
`validation_failed` payload while the consecutive-failure counter is left
exactly as it was — empty commands never count toward the limit. -/
theorem c10_empty_command_no_failure_count (st : ToolState) (mgr fin : SceneGraph)
    (exc : Option String) (trig : List Bool) (q : String)
    (h1 : st.consecutiveFailures < maxConsecutiveFailures)
    (h2 : pyStrip q = "") :
    (executeTool st mgr q exc trig fin).1.status = "validation_failed" ∧
    (executeTool st mgr q exc trig fin).2.consecutiveFailures = st.consecutiveFailures := by
  have hguard : ¬ ({ st with validationCount := st.validationCount + 1 }.consecutiveFailures ≥
      maxConsecutiveFailures) := by
    simpa using Nat.not_le.mpr h1
  simp only [executeTool, if_neg hguard]
  split_ifs <;> exact ⟨rfl, rfl⟩

/-- Witness for C10 as amended: a fresh tool state and a whitespace-only
command. -/
theorem c10_empty_command_no_failure_count_witness :
    ((3 : Nat) < maxConsecutiveFailures) ∧ pyStrip "   " = "" ∧
    (executeTool ⟨2, 3, 0, none⟩ ⟨[], []⟩ "   " none [] ⟨[], []⟩).1.status =
      "validation_failed" ∧
    (executeTool ⟨2, 3, 0, none⟩ ⟨[], []⟩ "   " none [] ⟨[], []⟩).2.consecutiveFailures = 3 :=
  ⟨by decide, by decide,
    (c10_empty_command_no_failure_count ⟨2, 3, 0, none⟩ ⟨[], []⟩ ⟨[], []⟩ none [] "   "
      (by decide) (by decide)).1,
    (c10_empty_command_no_failure_count ⟨2, 3, 0, none⟩ ⟨[], []⟩ ⟨[], []⟩ none [] "   "
      (by decide) (by decide)).2⟩

end GSR

namespace GSR

/-- Claim C7: when no completion trigger is observed during the whole wait
window (and no exception interrupts the wait), `execute`'s execution phase
returns the structured timeout payload — status `execution_timeout`, built by
`_format_timeout_response` — whose scene graph is exactly the manager's
current (last known) snapshot.  The embedding is a total function, so no
exception propagates. -/
theorem c7_timeout_returns_last_snapshot (managerCurrent finalGraph : SceneGraph)
    (triggers : List Bool) (h : ∀ t ∈ triggers, t = false) :
    executeAction none triggers managerCurrent finalGraph =
      formatTimeoutResponse managerCurrent ∧
    (executeAction none triggers managerCurrent finalGraph).status = "execution_timeout" ∧
    (executeAction none triggers managerCurrent finalGraph).sceneGraph = some managerCurrent := by
  have hany : triggers.any (fun t => t) = false := by
    rw [List.any_eq_false]
    intro t ht
    simp [h t ht]
  refine ⟨?_, ?_, ?_⟩ <;> simp [executeAction, hany, formatTimeoutResponse]

/-- Witness for C7 on a three-tick wait with no trigger. -/
theorem c7_timeout_returns_last_snapshot_witness :
    (∀ t ∈ [false, false, false], t = false) ∧
    executeAction none [false, false, false] ⟨["red_box"], ["red_cube1(in)red_box"]⟩ ⟨[], []⟩ =
      formatTimeoutResponse ⟨["red_box"], ["red_cube1(in)red_box"]⟩ :=
  ⟨by decide,
    (c7_timeout_returns_last_snapshot ⟨["red_box"], ["red_cube1(in)red_box"]⟩ ⟨[], []⟩
      [false, false, false] (by decide)).1⟩

end GSR

namespace GSR

/-- Claim C8: validation and execution always answer with a structured
payload. (i) An exception escaping a validation sub-check is caught by
`_validate_action_command`'s outer handler and converted into an invalid
verdict carrying a "Validation error: ..." reason; (ii) an exception raised
during publish/wait is caught by `_execute_action`'s handler and converted
into a structured `execution_error` payload; (iii) every run of the
validate-and-execute entry point ends in one of the five documented
statuses — the embedding is total, so nothing propagates to the caller. -/
theorem c8_no_exception_escapes :
    (∀ e, validateCatch (Except.error e) =
      { isValid := false, errorReason := some ("Validation error: " ++ e) }) ∧
    (∀ e (managerCurrent finalGraph : SceneGraph) (triggers : List Bool),
      (executeAction (some e) triggers managerCurrent finalGraph).status =
        "execution_error") ∧
    (∀ st mgr q exc trig fin,
      (executeTool st mgr q exc trig fin).1.status ∈
        ["task_failed", "validation_failed", "execution_success",
          "execution_timeout", "execution_error"]) := by
  refine ⟨fun e => rfl, fun e mc fg tr => rfl, ?_⟩
  intro st mgr q exc trig fin
  have hexec : ∀ (mc fg : SceneGraph),
      (executeAction exc trig mc fg).status ∈
        ["task_failed", "validation_failed", "execution_success",
          "execution_timeout", "execution_error"] := by
    intro mc fg
    cases exc with
    | some e => simp [executeAction, formatErrorResponse]
    | none =>
      by_cases hany : trig.any (fun t => t) = true <;>
        simp [executeAction, hany, formatSuccessResponse, formatTimeoutResponse]
  simp only [executeTool]
  split_ifs <;> first
    | exact hexec mgr fin
    | simp [validationFailedResponse]

end GSR

namespace GSR

/-- Claim C9: while the store is waiting for an update, an incoming snapshot
equal to the previous one (the last history entry; the history's last entry
is always the previously ingested snapshot, as the second conjunct shows)
increments the stable-frame counter, a differing snapshot resets it to 1,
and `check_update_status` reports the graph stable exactly when the counter
has reached the configured threshold, whose configured default is 5. -/
theorem c9_stability_tracking (st : MgrState) (g : SceneGraph)
    (hw : st.waitingForUpdate = true) :
    ((updateSceneGraph st g).stableFrameCount =
      if st.history ≠ [] ∧ st.history.getLast? = some g then st.stableFrameCount + 1 else 1) ∧
    ((updateSceneGraph st g).history.getLast? = some g) ∧
    ((checkUpdateStatus st).isStable = true ↔
      st.stableFrameCount ≥ st.stableFrameThreshold) ∧
    (checkUpdateStatus st).isWaiting = true ∧
    defaultStableFrameThreshold = 5 := by
  refine ⟨?_, ?_, ?_, ?_, rfl⟩
  · simp only [updateSceneGraph, hw, if_true, checkStability]
    by_cases h0 : st.history = []
    · simp [h0]
    · by_cases hlast : st.history.getLast? = some g <;> simp [h0, hlast]
  · simp only [updateSceneGraph, hw, if_true, checkStability]
    by_cases h0 : st.history = []
    · simp [h0]
    · by_cases hlast : st.history.getLast? = some g
      · by_cases hlen : st.history.length < st.maxHistorySize <;>
          simp [h0, hlast, hlen, List.getLast?_concat]
      · simp [h0, hlast]
  · simp [checkUpdateStatus, hw]
  · simp [checkUpdateStatus, hw]

/-- Witness for C9 at a waiting store with four stable frames and threshold
5: the matching snapshot pushes the counter to 5 and the status query then
reports stability. -/
theorem c9_stability_tracking_witness :
    ((⟨⟨[], []⟩, [⟨["a"], ["a(on)table"]⟩], 4, true, 5, 15⟩ : MgrState).waitingForUpdate
        = true) ∧
    (updateSceneGraph ⟨⟨[], []⟩, [⟨["a"], ["a(on)table"]⟩], 4, true, 5, 15⟩
        ⟨["a"], ["a(on)table"]⟩).stableFrameCount = 5 ∧
    ((checkUpdateStatus (updateSceneGraph ⟨⟨[], []⟩, [⟨["a"], ["a(on)table"]⟩], 4, true, 5, 15⟩
        ⟨["a"], ["a(on)table"]⟩)).isStable = true ↔ True) := by
  refine ⟨rfl, ?_, ?_⟩
  · have h := (c9_stability_tracking ⟨⟨[], []⟩, [⟨["a"], ["a(on)table"]⟩], 4, true, 5, 15⟩
      ⟨["a"], ["a(on)table"]⟩ rfl).1
    rw [h]
    simp
  · simp only [iff_true]
    have h := (c9_stability_tracking (updateSceneGraph
        ⟨⟨[], []⟩, [⟨["a"], ["a(on)table"]⟩], 4, true, 5, 15⟩
        ⟨["a"], ["a(on)table"]⟩) ⟨[], []⟩ (by decide)).2.2.1
    rw [h]
    decide

end GSR

namespace GSR

/-- Scene with three cubes already inside red_box and a fourth cube on the
table. -/
def sgThreeCubesInBox : SceneGraph :=
  ⟨["red_box", "red_cube1", "red_cube2", "red_cube3", "blue_cube"],
   ["red_cube1(in)red_box", "red_cube2(in)red_box", "red_cube3(in)red_box",
    "blue_cube(on)table"]⟩

/-- Scene with ten cubes already inside red_box and one more cube on the
table. -/
def sgTenCubesInBox : SceneGraph :=
  ⟨["red_box", "blue_cube"],
   ["c1_cube(in)red_box", "c2_cube(in)red_box", "c3_cube(in)red_box",
    "c4_cube(in)red_box", "c5_cube(in)red_box", "c6_cube(in)red_box",
    "c7_cube(in)red_box", "c8_cube(in)red_box", "c9_cube(in)red_box",
    "c10_cube(in)red_box", "blue_cube(on)table"]⟩

/-- Claim C1 evaluated on the code: with three cubes already inside red_box,
validating a fourth cube move into red_box succeeds — the capacity
short-circuit compares against 10, not 3 — and the success message even
reports "capacity (3/3)".  Only at ten resident cubes does the check reject,
with a message that still claims a limit of 3 ("at capacity (10/3 cubes)"):
the code contradicts its own user-facing text, which matches the claim's
limit of three. -/
theorem c1_capacity_check_evaluation :
    (validateActionCommand "move blue_cube in red_box" sgThreeCubesInBox).isValid = true ∧
    (canPlaceCubeInBox "blue_cube" "red_box" sgThreeCubesInBox).2 =
      "Can move blue_cube to red_box. Source accessible, target accessible, target has capacity (3/3)." ∧
    (canPlaceCubeInBox "blue_cube" "red_box" sgTenCubesInBox).1 = false ∧
    (canPlaceCubeInBox "blue_cube" "red_box" sgTenCubesInBox).2 =
      "Cannot place blue_cube in red_box because container is at capacity (10/3 cubes)." := by
  refine ⟨by decide, by decide, by decide, by decide⟩

end GSR

namespace GSR

/-- When the exact edge is in the list, `_check_action_already_completed`
answers true. -/
theorem checkActionAlreadyCompleted_fst_of_contains (src tgt rel : String)
    (edges : List String)
    (h : edges.contains (src ++ "(" ++ rel ++ ")" ++ tgt) = true) :
    (checkActionAlreadyCompleted src tgt rel edges).1 = true := by
  simp only [checkActionAlreadyCompleted]
  rw [if_pos h]

/-- The final validation step rejects once the already-completed check
answers true. -/
theorem finishMoveValidation_isValid_false (src tgt rel : String) (edges : List String)
    (h : (checkActionAlreadyCompleted src tgt rel edges).1 = true) :
    (finishMoveValidation src tgt rel edges).isValid = false := by
  simp [finishMoveValidation, h]

/-- Every branch of the move-validation chain yields an invalid verdict when
the already-completed check holds: the early returns are invalid by
construction and both terminal branches end in `finishMoveValidation`. -/
theorem validateMoveCommand_isValid_false_of_completed (src rel tgt : String)
    (sg : SceneGraph)
    (h : (checkActionAlreadyCompleted src tgt rel sg.edges).1 = true) :
    (validateMoveCommand src rel tgt sg).isValid = false := by
  simp only [validateMoveCommand]
  split_ifs <;> first
    | rfl
    | exact finishMoveValidation_isValid_false _ _ _ _ h

/-- Counterexample to claim C4 as stated: the exact target edge
"a_box(on)b_box" is already in the edge list, yet validation rejects the
move with the movability reason ("blocked by x_cube"), not an
already-completed reason — the already-completed check runs last, so an
earlier failing check wins. -/
theorem c4_already_completed_counterexample :
    (validateActionCommand "move a_box on b_box"
      ⟨["a_box", "b_box", "x_cube"], ["a_box(on)b_box", "x_cube(on)a_box"]⟩) =
      { isValid := false
        errorReason := some "Cannot move a_box: a_box is blocked by x_cube on top of it" } ∧
    ["a_box(on)b_box", "x_cube(on)a_box"].contains "a_box(on)b_box" = true := by
  constructor
  · decide
  · decide

/-- Claim C4 as amended: a move command whose exact target edge already
appears in the scene graph is always rejected (never accepted) — though when
an earlier check fails first the reported reason is that check's, and the
already-completed reason appears when the other checks pass; in particular
the same move validated again after its first application produced the edge
"red_cube1(in)red_box" is rejected with the "Action already completed"
reason. -/
theorem c4_already_completed_never_validates :
    (∀ (cmd : String) (sg : SceneGraph) (src rel tgt : String),
      parseFlexibleActionCommand cmd = some (ParsedAction.move src rel tgt) →
      sg.edges.contains (src ++ "(" ++ rel ++ ")" ++ tgt) = true →
      (validateActionCommand cmd sg).isValid = false) ∧
    validateActionCommand "move red_cube1 in red_box"
      ⟨["red_box", "red_cube1"], ["red_cube1(in)red_box"]⟩ =
      { isValid := false
        errorReason := some "Action already completed: red_cube1 is already in red_box" } := by
  constructor
  · intro cmd sg src rel tgt hparse hmem
    simp only [validateActionCommand, hparse]
    exact validateMoveCommand_isValid_false_of_completed src rel tgt sg
      (checkActionAlreadyCompleted_fst_of_contains src tgt rel sg.edges hmem)
  · decide

/-- Witness for C4 as amended at a concrete command and scene. -/
theorem c4_already_completed_never_validates_witness :
    parseFlexibleActionCommand "move red_cube1 in red_box" =
      some (ParsedAction.move "red_cube1" "in" "red_box") ∧
    ["blue_cube(on)table", "red_cube1(in)red_box"].contains
      ("red_cube1" ++ "(" ++ "in" ++ ")" ++ "red_box") = true ∧
    (validateActionCommand "move red_cube1 in red_box"
      ⟨["red_box"], ["blue_cube(on)table", "red_cube1(in)red_box"]⟩).isValid = false :=
  ⟨by decide, by decide,
    c4_already_completed_never_validates.1 "move red_cube1 in red_box"
      ⟨["red_box"], ["blue_cube(on)table", "red_cube1(in)red_box"]⟩
      "red_cube1" "in" "red_box" (by decide) (by decide)⟩

end GSR

namespace GSR

/-- The three canonical drawers of the cabinet. -/
def isCanonicalDrawer (d : String) : Prop :=
  d = "short_cabinet/drawer_low" ∨ d = "short_cabinet/drawer_middle" ∨
    d = "short_cabinet/drawer_high"

/-- The accessibility property `_check_drawer_constraints` actually enforces
on a drawer: the drawer itself reads as open, and each drawer above it does
not read as open (states are read by `_get_object_state`; "not open" also
covers a drawer with no state tag, which is weaker than "closed"). -/
def drawerAccessSpec (d : String) (sg : SceneGraph) : Prop :=
  getObjectState d sg = some "open" ∧
  (d = "short_cabinet/drawer_low" →
    getObjectState "short_cabinet/drawer_middle" sg ≠ some "open" ∧
    getObjectState "short_cabinet/drawer_high" sg ≠ some "open") ∧
  (d = "short_cabinet/drawer_middle" →
    getObjectState "short_cabinet/drawer_high" sg ≠ some "open")

/-- A passing drawer-constraint check certifies `drawerAccessSpec`. -/
theorem checkDrawerConstraints_true_then_spec (d : String) (sg : SceneGraph)
    (h : (checkDrawerConstraints d sg).1 = true) :
    drawerAccessSpec d sg := by
  have h1 : getObjectState d sg = some "open" := by
    by_contra hne
    simp only [checkDrawerConstraints, if_pos hne] at h
    simp at h
  refine ⟨h1, ?_, ?_⟩
  · intro hd
    subst hd
    constructor
    · intro hmid
      simp only [checkDrawerConstraints, if_neg (not_not.mpr h1), if_pos rfl,
        if_pos hmid] at h
      simp at h
    · intro hhigh
      by_cases hmid : getObjectState "short_cabinet/drawer_middle" sg = some "open"
      · simp only [checkDrawerConstraints, if_neg (not_not.mpr h1), if_pos rfl,
          if_pos hmid] at h
        simp at h
      · simp only [checkDrawerConstraints, if_neg (not_not.mpr h1), if_pos rfl,
          if_neg hmid, if_pos hhigh] at h
        simp at h
  · intro hd
    subst hd
    intro hhigh
    simp only [checkDrawerConstraints, if_neg (not_not.mpr h1)] at h
    rw [if_neg (by decide)] at h
    simp [hhigh] at h

/-- A drawer target that `_can_access_target` lets through has passed the
drawer-constraint check. -/
theorem canAccessTarget_true_drawer (t : String) (sg : SceneGraph)
    (hacc : (canAccessTarget t sg).1 = true)
    (hd : pyContains t "drawer" = true) :
    (checkDrawerConstraints t sg).1 = true := by
  simp only [canAccessTarget] at hacc
  split_ifs at hacc with h1 h2 h3
  cases hcheck : (checkDrawerConstraints t sg).1 with
  | true => rfl
  | false => exact absurd (by simp [hd, hcheck]) h3

/-- A source object sitting inside a drawer container that `_can_move_object`
lets through has passed the drawer-constraint check for that container. -/
theorem canMoveObject_true_drawer (src d : String) (sg : SceneGraph)
    (hmv : (canMoveObject src sg).1 = true)
    (hfind : findInContainer src sg.edges = some d)
    (hd : pyContains d "drawer" = true) :
    (checkDrawerConstraints d sg).1 = true := by
  rcases hfb : findOnBlocker src sg.edges with _ | above
  · simp only [canMoveObject, hfb, hfind] at hmv
    split_ifs at hmv with h1 h2
    cases hcheck : (checkDrawerConstraints d sg).1 with
    | true => rfl
    | false => exact absurd (by simp [hd, hcheck]) h2
  · simp only [canMoveObject, hfb] at hmv
    simp at hmv

/-- A move verdict of valid implies the movability check passed. -/
theorem validateMoveCommand_valid_canMove (src rel tgt : String) (sg : SceneGraph)
    (h : (validateMoveCommand src rel tgt sg).isValid = true) :
    (canMoveObject src sg).1 = true := by
  cases hcm : (canMoveObject src sg).1 with
  | true => rfl
  | false =>
    exfalso
    simp only [validateMoveCommand] at h
    split_ifs at h <;> simp_all

/-- A move verdict of valid for a non-table target implies the
target-accessibility check passed. -/
theorem validateMoveCommand_valid_canAccess (src rel tgt : String) (sg : SceneGraph)
    (h : (validateMoveCommand src rel tgt sg).isValid = true)
    (ht : tgt ≠ "table") :
    (canAccessTarget tgt sg).1 = true := by
  cases hca : (canAccessTarget tgt sg).1 with
  | true => rfl
  | false =>
    exfalso
    simp only [validateMoveCommand] at h
    split_ifs at h
    simp_all

end GSR

namespace GSR

/-- Counterexample to claim C3 as stated: drawer_low is open and drawer_high
closed, but drawer_middle carries no open/closed state tag at all — so it is
not "closed" — and the move into drawer_low is nevertheless accepted: the
code only requires the drawers above not to read as open. -/
theorem c3_drawer_ordering_counterexample :
    (validateActionCommand "move x_cube in short_cabinet/drawer_low"
      ⟨["x_cube", "short_cabinet/drawer_low(open)", "short_cabinet/drawer_middle",
        "short_cabinet/drawer_high(closed)"],
       ["x_cube(on)table"]⟩).isValid = true ∧
    getObjectState "short_cabinet/drawer_middle"
      ⟨["x_cube", "short_cabinet/drawer_low(open)", "short_cabinet/drawer_middle",
        "short_cabinet/drawer_high(closed)"],
       ["x_cube(on)table"]⟩ = none := by
  constructor
  · decide
  · decide

/-- Claim C3 as amended: a move command accepted by the validator satisfies
the drawer-ordering discipline with "not open" in place of "closed": when its
target is one of the three cabinet drawers, that drawer reads as open and
every drawer above it does not read as open (drawer_low needs middle and high
not open, drawer_middle needs high not open, drawer_high nothing more); and
symmetrically, when the source object's containing edge puts it inside one of
the three drawers, the same discipline holds for that drawer. -/
theorem c3_drawer_ordering_on_accept (cmd : String) (sg : SceneGraph)
    (src rel tgt : String)
    (hparse : parseFlexibleActionCommand cmd = some (ParsedAction.move src rel tgt))
    (hvalid : (validateActionCommand cmd sg).isValid = true) :
    (isCanonicalDrawer tgt → drawerAccessSpec tgt sg) ∧
    (∀ d, findInContainer src sg.edges = some d → isCanonicalDrawer d →
      drawerAccessSpec d sg) := by
  have hmv : (validateMoveCommand src rel tgt sg).isValid = true := by
    simpa only [validateActionCommand, hparse] using hvalid
  constructor
  · intro hcan
    have htne : tgt ≠ "table" := by
      rcases hcan with h | h | h <;> subst h <;> decide
    have hdr : pyContains tgt "drawer" = true := by
      rcases hcan with h | h | h <;> subst h <;> decide
    exact checkDrawerConstraints_true_then_spec tgt sg
      (canAccessTarget_true_drawer tgt sg
        (validateMoveCommand_valid_canAccess src rel tgt sg hmv htne) hdr)
  · intro d hfind hcan
    have hdr : pyContains d "drawer" = true := by
      rcases hcan with h | h | h <;> subst h <;> decide
    exact checkDrawerConstraints_true_then_spec d sg
      (canMoveObject_true_drawer src d sg
        (validateMoveCommand_valid_canMove src rel tgt sg hmv) hfind hdr)

/-- Witness for C3 as amended: a move of a cube into an open drawer_low with
middle and high drawers closed is accepted, and the theorem yields the
drawer discipline for the target. -/
theorem c3_drawer_ordering_on_accept_witness :
    parseFlexibleActionCommand "move x_cube in short_cabinet/drawer_low" =
      some (ParsedAction.move "x_cube" "in" "short_cabinet/drawer_low") ∧
    (validateActionCommand "move x_cube in short_cabinet/drawer_low"
      ⟨["x_cube", "short_cabinet/drawer_low(open)", "short_cabinet/drawer_middle(closed)",
        "short_cabinet/drawer_high(closed)"],
       ["x_cube(on)table"]⟩).isValid = true ∧
    drawerAccessSpec "short_cabinet/drawer_low"
      ⟨["x_cube", "short_cabinet/drawer_low(open)", "short_cabinet/drawer_middle(closed)",
        "short_cabinet/drawer_high(closed)"],
       ["x_cube(on)table"]⟩ :=
  ⟨by decide, by decide,
    (c3_drawer_ordering_on_accept "move x_cube in short_cabinet/drawer_low"
      ⟨["x_cube", "short_cabinet/drawer_low(open)", "short_cabinet/drawer_middle(closed)",
        "short_cabinet/drawer_high(closed)"],
       ["x_cube(on)table"]⟩
      "x_cube" "in" "short_cabinet/drawer_low" (by decide) (by decide)).1
      (Or.inl rfl)⟩

end GSR

namespace GSR

/-- A prefix test that fits inside the first summand ignores the second. -/
theorem isPrefixList_append_of_le (p : List Char) :
    ∀ (l t : List Char), p.length ≤ l.length →
      isPrefixList p (l ++ t) = isPrefixList p l := by
  induction p with
  | nil => intro l t _; rfl
  | cons a ps ih =>
    intro l t hlen
    cases l with
    | nil => simp at hlen
    | cons b ls =>
      simp only [List.cons_append, isPrefixList, List.append_eq]
      rw [ih ls t (by simpa using hlen)]

/-- A list is a prefix of itself extended by anything. -/
theorem isPrefixList_self_append (p t : List Char) : isPrefixList p (p ++ t) = true := by
  induction p with
  | nil => rfl
  | cons a ps ih => simp [isPrefixList, ih]

/-- Substring membership survives prepending. -/
theorem containsSubList_append_left (x : List Char) {s p : List Char}
    (h : containsSubList s p = true) : containsSubList (x ++ s) p = true := by
  induction x with
  | nil => simpa using h
  | cons c cs ih => simp [containsSubList, ih]

/-- Substring membership survives one leading character. -/
theorem containsSubList_cons_of (c : Char) {s p : List Char}
    (h : containsSubList s p = true) : containsSubList (c :: s) p = true := by
  simp [containsSubList, h]

/-- A list occurs in itself extended by anything. -/
theorem containsSubList_self_append (p t : List Char) :
    containsSubList (p ++ t) p = true := by
  cases p with
  | nil => cases t <;> simp [containsSubList, isPrefixList]
  | cons a ps =>
    have h := isPrefixList_self_append (a :: ps) t
    simp only [List.cons_append] at h
    simp [containsSubList, h]

/-- Claim C6: after a validate-and-execute round, the orchestration graph's
conditional edge sends a `validation_failed` result and a `task_failed`
result to the terminal state (no further planning round), and an
`execution_success` result back to the planning node "agent".  The decision
is computed from the prose feedback message built for the round plus the
round's execution record: the validation-failure probe matches exactly the
validation-failed feedback, while a task failure is caught through the
record's task-failed flag parsed from the raw tool result. -/
theorem c6_routing_after_execution (q r m s : String) :
    afterExecutionTarget (shouldContinueAfterExecution
      (buildActionFeedbackMessage "validation_failed" q r m s) false
      (recordTaskFailedOfStatus "validation_failed")) = "END" ∧
    afterExecutionTarget (shouldContinueAfterExecution
      (buildActionFeedbackMessage "task_failed" q r m s) false
      (recordTaskFailedOfStatus "task_failed")) = "END" ∧
    afterExecutionTarget (shouldContinueAfterExecution
      (buildActionFeedbackMessage "execution_success" q r m s) false
      (recordTaskFailedOfStatus "execution_success")) = "agent" := by
  refine ⟨?_, ?_, ?_⟩
  · have hhead : buildActionFeedbackMessage "validation_failed" q r m s =
        ((((("The action '" ++ q) ++ "' is invalid, reason: ") ++ r) ++
          "\n\nCurrent scene graph:\n") ++ s) := rfl
    have hsw : pyStartsWith (buildActionFeedbackMessage "validation_failed" q r m s)
        "The action '" = true := by
      rw [hhead]
      simp only [pyStartsWith, String.data_append, List.append_assoc]
      exact isPrefixList_self_append _ _
    have hct : pyContains (buildActionFeedbackMessage "validation_failed" q r m s)
        "is invalid, reason:" = true := by
      rw [hhead]
      simp only [pyContains, String.data_append, List.append_assoc]
      apply containsSubList_append_left
      apply containsSubList_append_left
      simp only [List.cons_append, List.nil_append]
      apply containsSubList_cons_of
      apply containsSubList_cons_of
      exact containsSubList_self_append ("is invalid, reason:" : String).data
        ((" " : String).data ++ (r.data ++ (("\n\nCurrent scene graph:\n" : String).data ++ s.data)))
    simp only [shouldContinueAfterExecution, hsw, hct, Bool.and_self, if_true]
    decide
  · have hrec : recordTaskFailedOfStatus "task_failed" = true := by decide
    by_cases hc : (pyStartsWith (buildActionFeedbackMessage "task_failed" q r m s)
        "The action '" && pyContains (buildActionFeedbackMessage "task_failed" q r m s)
        "is invalid, reason:") = true
    · simp only [shouldContinueAfterExecution, if_pos hc]
      decide
    · simp only [shouldContinueAfterExecution, if_neg hc, hrec]
      decide
  · have hhead : buildActionFeedbackMessage "execution_success" q r m s =
        (((("The previous action '" ++ q) ++ "' was executed successfully.") ++
          "\n\nCurrent scene graph:\n") ++ s) := rfl
    have hsw : pyStartsWith (buildActionFeedbackMessage "execution_success" q r m s)
        "The action '" = false := by
      rw [hhead]
      simp only [pyStartsWith, String.data_append, List.append_assoc]
      rw [isPrefixList_append_of_le _ _ _ (by decide)]
      decide
    have hrec : recordTaskFailedOfStatus "execution_success" = false := by decide
    simp only [shouldContinueAfterExecution, hsw, Bool.false_and, hrec]
    decide

end GSR
